import Mathlib

/-!
Shallow embedding of `src/codedocgen/evaluator.py` (class `DocEvaluator`) from the
CodeDocGen repository, together with theorems settling the specification claims
about it.

Modelling conventions:
* Python strings are `List Char`; Python floats are `ℚ` (all quantities involved
  are exact small rationals), except in the accuracy model where the external
  embedding capability forces `ℝ`.
* The NLTK tokenizers `sent_tokenize` / `word_tokenize` are external library
  functions; the embedding abstracts them as function parameters of type
  `List Char → List (List Char)`.
* The source file is truncated at line 122: the body of `evaluate_accuracy` and
  the helper `_extract_code_elements` are absent.  Those two pieces are modelled
  from the specification (their doc comments below say so explicitly); everything
  else is translated directly from the Python source.
* `DocEvaluator.__init__` interacts with process state (the `openai.api_key`
  global, the `OPENAI_API_KEY` environment variable, the logger); its embedding
  `DocEvaluator.init` takes the ambient inputs explicitly and returns the
  resulting evaluator, the resulting global key, and whether the warning was
  logged.
-/

namespace CodeDocGen

/-- Python's `str.lower()` restricted to ASCII case folding, applied
characterwise to the text. -/
def lower (s : List Char) : List Char := s.map Char.toLower

/-- Python's substring test `needle in hay`, as a boolean scan over the
haystack (true iff `needle` occurs contiguously inside `hay`). -/
def isSubstring (needle hay : List Char) : Bool :=
  match hay with
  | [] => needle.isEmpty
  | _ :: t => needle.isPrefixOf hay || isSubstring needle t

/-- The evaluator object: the only instance state the (non-truncated part of
the) source stores is `self.model`. -/
structure DocEvaluator where
  model : List Char

/-- Result of running `DocEvaluator.__init__`: the constructed evaluator, the
value of the process-wide `openai.api_key` global afterwards, and whether the
"no API key" warning was logged.  The source has no raise statement and defines
no exception class, so construction always produces a value. -/
structure InitResult where
  evaluator : DocEvaluator
  openai_api_key : Option (List Char)
  warned : Bool

/-- Python truthiness of an optional string: `None` and the empty string are
falsy. -/
def truthy : Option (List Char) → Bool
  | none => false
  | some s => !s.isEmpty

/-- Embedding of `DocEvaluator.__init__` (evaluator.py lines 43-65).
`api_key` is the explicit parameter, `env_key` the value of the
`OPENAI_API_KEY` environment variable, `prev_key` the prior value of the
`openai.api_key` global.  If `api_key` is truthy the global is set to it;
otherwise if the environment variable is truthy the global is set to that;
otherwise a warning is logged and the global is left unchanged. -/
def DocEvaluator.init (model : List Char)
    (api_key env_key prev_key : Option (List Char)) : InitResult :=
  if truthy api_key then ⟨⟨model⟩, api_key, false⟩
  else if truthy env_key then ⟨⟨model⟩, env_key, false⟩
  else ⟨⟨model⟩, prev_key, true⟩

/-- Characters admissible in an extracted identifier. -/
def isIdentChar (c : Char) : Bool := c.isAlphanum || c == '_'

/-- Leading-space trimming used by the lexical declaration patterns. -/
def dropSpaces (s : List Char) : List Char := s.dropWhile (fun c => c == ' ')

/-- Modelled from the spec: one lexical declaration pattern of the missing
`DocEvaluator._extract_code_elements` (the source file is truncated before its
definition).  Per §4.1 a pattern matches a declaration keyword at the start of
a line (after indentation) and collects the declared identifier that follows. -/
def declIdent (kw line : List Char) : Option (List Char) :=
  let rest := dropSpaces line
  if kw.isPrefixOf rest then
    let ident := (dropSpaces (rest.drop kw.length)).takeWhile isIdentChar
    if ident.isEmpty then none else some ident
  else none

/-- Modelled from the spec: the small table of per-language-family declaration
keywords of §4.1 (`def`-style, `class`, `function`-style declarations). -/
def declKeywords : List (List Char) :=
  [("def ".toList), ("class ".toList), ("function ".toList)]

/-- Modelled from the spec: `DocEvaluator._extract_code_elements`, which is
absent from the truncated source.  Per §4.1 it lexically scans the source text
line by line with the keyword patterns, collects the declared identifier of
every match, and collapses duplicates into a set (here: a deduplicated list).
A source with no pattern match yields the empty set, not an error. -/
def extract_code_elements (code : List Char) : List (List Char) :=
  ((code.splitOn '\n').flatMap
    (fun line => declKeywords.filterMap (fun kw => declIdent kw line))).dedup

/-- Embedding of `DocEvaluator.evaluate_completeness` (evaluator.py lines
67-92): extract the code elements, count those whose lowered name is a
substring of the lowered documentation, and return `mentioned / total`, or
`1.0` when there are no elements. -/
def DocEvaluator.evaluate_completeness (_self : DocEvaluator)
    (code documentation : List Char) : ℚ :=
  let code_elements := extract_code_elements code
  let mentioned_count :=
    (code_elements.filter (fun el => isSubstring (lower el) (lower documentation))).length
  if code_elements.isEmpty then 1
  else (mentioned_count : ℚ) / (code_elements.length : ℚ)

/-- Embedding of `DocEvaluator.evaluate_clarity` (evaluator.py lines 94-118):
tokenize into sentences and words with the external NLTK tokenizers (passed as
parameters), return `0.0` if either list is empty, otherwise
`1.0 - min(1.0, max(0.0, (avg_sentence_length - 15) / 25))` where
`avg_sentence_length = len(words) / len(sentences)`. -/
def DocEvaluator.evaluate_clarity (_self : DocEvaluator)
    (sent_tokenize word_tokenize : List Char → List (List Char))
    (documentation : List Char) : ℚ :=
  let sentences := sent_tokenize documentation
  let words := word_tokenize documentation
  if sentences.isEmpty || words.isEmpty then 0
  else
    let avg_sentence_length : ℚ := (words.length : ℚ) / (sentences.length : ℚ)
    1 - min 1 (max 0 ((avg_sentence_length - 15) / 25))

/-- Modelled from the spec: whitespace word segmentation used by the n-gram
overlap component of the missing accuracy-scoring body (§4.4). -/
def tokens (s : List Char) : List (List Char) :=
  (s.splitOn ' ').filter (fun w => !w.isEmpty)

/-- Modelled from the spec: the n-gram precision overlap score with brevity
smoothing of §4.4 (the accuracy-scoring body is truncated out of the source).
For candidate and reference token lists: the fraction of candidate n-grams
occurring in the reference, damped by the brevity factor
`min(1, |candidate| / |reference|)`; degenerate empty inputs score `1` exactly
when candidate and reference agree. -/
def ngramOverlap (cand ref : List (List Char)) : ℚ :=
  if cand.isEmpty || ref.isEmpty then (if cand = ref then 1 else 0)
  else
    let matched := (cand.filter (fun g => ref.contains g)).length
    min 1 ((cand.length : ℚ) / (ref.length : ℚ)) * ((matched : ℚ) / (cand.length : ℚ))

/-- Dot product of two embedding vectors. -/
noncomputable def dotProduct (x y : List ℝ) : ℝ := (x.zipWith (· * ·) y).sum

/-- Cosine similarity between two embedding vectors, as computed by
`sklearn.metrics.pairwise.cosine_similarity` imported by the source. -/
noncomputable def cosineSim (x y : List ℝ) : ℝ :=
  dotProduct x y / (Real.sqrt (dotProduct x x) * Real.sqrt (dotProduct y y))

/-- Result type of the accuracy scorer: a numeric score or the documented
"not computable" sentinel. -/
inductive AccuracyResult where
  | score (value : ℝ)
  | notComputable

/-- Modelled from the spec: `DocEvaluator.evaluate_accuracy`, whose body is
truncated out of the source at evaluator.py line 122.  Per §4.4/§6/§7: with a
reference, combine the n-gram overlap score and the cosine similarity of the
external embeddings by a weighted average (degrading to the n-gram component
alone when the embedding capability is unavailable); with no reference, fall
back to a self-consistency embedding comparison against the source when the
capability is available, and return the "not computable" sentinel when it is
not.  The external embedding capability is the injected `embed` parameter
(`none` = unavailable), `w` the configurable weight. -/
noncomputable def DocEvaluator.evaluate_accuracy (_self : DocEvaluator)
    (embed : Option (List Char → List ℝ)) (w : ℝ)
    (code documentation : List Char) (reference : Option (List Char)) : AccuracyResult :=
  match reference with
  | some ref =>
      let ngram : ℝ := (ngramOverlap (tokens documentation) (tokens ref) : ℚ)
      match embed with
      | some f => .score (w * ngram + (1 - w) * cosineSim (f documentation) (f ref))
      | none => .score ngram
  | none =>
      match embed with
      | some f => .score (cosineSim (f code) (f documentation))
      | none => .notComputable

/-- Constant sentence/word tokenizer producing one one-character unit, used to
instantiate the abstracted NLTK tokenizers at concrete inputs. -/
def oneTok : List Char → List (List Char) := fun _ => [[('a' : Char)]]

/-- Constant tokenizer producing no units (NLTK tokenization of empty text). -/
def emptyTok : List Char → List (List Char) := fun _ => []

theorem isSubstring_iff (needle hay : List Char) :
    isSubstring needle hay = true ↔ needle <:+: hay := by
  induction hay with
  | nil => simp [isSubstring, List.isEmpty_iff, List.infix_nil]
  | cons a t ih =>
      rw [show isSubstring needle (a :: t)
            = (needle.isPrefixOf (a :: t) || isSubstring needle t) from rfl,
        Bool.or_eq_true, List.isPrefixOf_iff_prefix, ih, List.infix_cons_iff]

theorem isSubstring_append (n d s : List Char)
    (h : isSubstring n d = true) : isSubstring n (d ++ s) = true :=
  (isSubstring_iff n (d ++ s)).mpr
    (((isSubstring_iff n d).mp h).trans (List.prefix_append d s).isInfix)

theorem ngramOverlap_self (t : List (List Char)) : ngramOverlap t t = 1 := by
  unfold ngramOverlap
  by_cases ht : t.isEmpty
  · simp [ht]
  · rw [if_neg (by simp [ht])]
    have hlen : ((t.length : ℚ)) ≠ 0 := by
      simpa [List.isEmpty_iff, ← List.length_eq_zero] using ht
    have hfil : t.filter (fun g => t.contains g) = t :=
      List.filter_eq_self.mpr (fun a ha => by simpa using ha)
    simp only [hfil, div_self hlen]
    norm_num

theorem dotProduct_self_nonneg (x : List ℝ) : 0 ≤ dotProduct x x := by
  unfold dotProduct
  rw [List.zipWith_same]
  exact List.sum_nonneg (by
    intro y hy
    obtain ⟨a, _, rfl⟩ := List.mem_map.mp hy
    exact mul_self_nonneg a)

theorem cosineSim_self (x : List ℝ) (hx : dotProduct x x ≠ 0) :
    cosineSim x x = 1 := by
  unfold cosineSim
  rw [Real.mul_self_sqrt (dotProduct_self_nonneg x), div_self hx]

/-- C1: for every source whose extracted element set is non-empty and every
documentation text, `evaluate_completeness` returns `|matched| / |E|`, where an
element is matched exactly when its name occurs case-insensitively as a
substring (`List.IsInfix` after lowering) of the documentation; in particular
the source `"def foo(): pass\ndef bar(): pass"` with documentation
`"This module defines foo."` scores `0.5`. -/
theorem C1_completeness_ratio (e : DocEvaluator) (code doc : List Char)
    (h : extract_code_elements code ≠ []) :
    e.evaluate_completeness code doc =
      (((extract_code_elements code).countP
          (fun el => decide (lower el <:+: lower doc)) : ℚ))
        / ((extract_code_elements code).length : ℚ)
    ∧ e.evaluate_completeness ("def foo(): pass\ndef bar(): pass".toList)
        ("This module defines foo.".toList) = 1 / 2 := by
  constructor
  · unfold DocEvaluator.evaluate_completeness
    rw [if_neg (by simpa [List.isEmpty_iff] using h)]
    congr 2
    rw [List.countP_eq_length_filter]
    congr 1
    apply List.filter_congr
    intro x _
    by_cases hx : lower x <:+: lower doc
    · simp [hx, (isSubstring_iff (lower x) (lower doc)).mpr hx]
    · simp only [hx, decide_False]
      exact Bool.not_eq_true _ ▸ (fun hc => hx ((isSubstring_iff _ _).mp hc))
  · show (1 : ℚ) / (2 : ℚ) = 1 / 2
    norm_num

/-- Witness for C1 at the specification's own scenario. -/
theorem C1_completeness_ratio_witness :
    extract_code_elements ("def foo(): pass\ndef bar(): pass".toList) ≠ [] ∧
    (⟨[]⟩ : DocEvaluator).evaluate_completeness
        ("def foo(): pass\ndef bar(): pass".toList)
        ("This module defines foo.".toList) = 1 / 2 :=
  ⟨by decide,
    (C1_completeness_ratio ⟨[]⟩ ("def foo(): pass\ndef bar(): pass".toList)
      ("This module defines foo.".toList) (by decide)).2⟩

/-- C3: a source from which zero code elements are extracted scores
completeness exactly `1.0` against every documentation text. -/
theorem C3_vacuous_completeness (e : DocEvaluator) (code doc : List Char)
    (h : extract_code_elements code = []) :
    e.evaluate_completeness code doc = 1 := by
  simp [DocEvaluator.evaluate_completeness, h]

/-- Witness for C3: the source `"x = 1"` has no extractable elements and
scores `1.0` even against empty documentation. -/
theorem C3_vacuous_completeness_witness :
    extract_code_elements ("x = 1".toList) = [] ∧
    (⟨[]⟩ : DocEvaluator).evaluate_completeness ("x = 1".toList) [] = 1 :=
  ⟨by decide, C3_vacuous_completeness ⟨[]⟩ ("x = 1".toList) [] (by decide)⟩

/-- C4: when the sentence segmentation or the word segmentation of the
documentation yields zero units, `evaluate_clarity` returns exactly `0.0`. -/
theorem C4_empty_clarity (e : DocEvaluator)
    (st wt : List Char → List (List Char)) (doc : List Char)
    (h : st doc = [] ∨ wt doc = []) :
    e.evaluate_clarity st wt doc = 0 := by
  rcases h with h | h <;> simp [DocEvaluator.evaluate_clarity, h]

/-- Witness for C4 at the empty documentation, whose NLTK segmentations are
both empty. -/
theorem C4_empty_clarity_witness :
    (emptyTok [] = [] ∨ emptyTok [] = []) ∧
    (⟨[]⟩ : DocEvaluator).evaluate_clarity emptyTok emptyTok [] = 0 :=
  ⟨Or.inl rfl, C4_empty_clarity ⟨[]⟩ emptyTok emptyTok [] (Or.inl rfl)⟩

/-- C8: the completeness and clarity scorers are deterministic — two calls on
the same evaluator with identical inputs return equal results.  The embedded
methods are pure functions of the evaluator and the arguments because the
source bodies read no mutable or ambient state, so the two calls coincide. -/
theorem C8_deterministic (e : DocEvaluator)
    (st wt : List Char → List (List Char)) (code doc : List Char) :
    e.evaluate_completeness code doc = e.evaluate_completeness code doc ∧
    e.evaluate_clarity st wt doc = e.evaluate_clarity st wt doc :=
  ⟨rfl, rfl⟩

/-- C9: `evaluate_completeness` is monotone under appending text to the
documentation: substring containment of each (lowered) element name is
preserved by the append, the element set depends only on the source, and the
matched count can only grow. -/
theorem C9_completeness_monotone (e : DocEvaluator) (code d s : List Char) :
    e.evaluate_completeness code d ≤ e.evaluate_completeness code (d ++ s) := by
  unfold DocEvaluator.evaluate_completeness
  by_cases hE : (extract_code_elements code).isEmpty
  · simp [hE]
  · rw [if_neg hE, if_neg hE]
    have hpos : (0 : ℚ) < ((extract_code_elements code).length : ℚ) := by
      have : extract_code_elements code ≠ [] := by
        simpa [List.isEmpty_iff] using hE
      exact_mod_cast Nat.pos_of_ne_zero (fun hz => this (List.length_eq_zero.mp hz))
    apply (div_le_div_iff_of_pos_right hpos).mpr
    apply Nat.cast_le.mpr
    rw [← List.countP_eq_length_filter, ← List.countP_eq_length_filter]
    apply List.countP_mono_left
    intro x _ hx
    have hla : lower (d ++ s) = lower d ++ lower s := List.map_append _ d s
    rw [hla]
    exact isSubstring_append _ _ _ hx

/-- C10: the results of `evaluate_completeness` and `evaluate_clarity` do not
depend on the evaluator's configuration: two evaluators constructed with any
model names, API keys, environment keys and prior global key agree on every
input, since neither scorer reads any instance or process state. -/
theorem C10_config_independence (m1 m2 : List Char)
    (a1 k1 p1 a2 k2 p2 : Option (List Char))
    (st wt : List Char → List (List Char)) (code doc : List Char) :
    (DocEvaluator.init m1 a1 k1 p1).evaluator.evaluate_completeness code doc
      = (DocEvaluator.init m2 a2 k2 p2).evaluator.evaluate_completeness code doc ∧
    (DocEvaluator.init m1 a1 k1 p1).evaluator.evaluate_clarity st wt doc
      = (DocEvaluator.init m2 a2 k2 p2).evaluator.evaluate_clarity st wt doc :=
  ⟨rfl, rfl⟩

/-- C2: when the documentation segments into at least one sentence and one
word, `evaluate_clarity` returns `1 - clamp((avg - 15) / 25, 0, 1)` with
`avg = wordCount / sentenceCount`; consequently the score is `1.0` for
`avg ≤ 15`, `0.0` for `avg ≥ 40`, always lies in `[0, 1]`, and is monotone
non-increasing in the average sentence length between 15 and 40 (here compared
across a second segmented documentation). -/
theorem C2_clarity_formula (e e2 : DocEvaluator)
    (st wt st2 wt2 : List Char → List (List Char)) (doc doc2 : List Char)
    (hs : st doc ≠ []) (hw : wt doc ≠ [])
    (hs2 : st2 doc2 ≠ []) (hw2 : wt2 doc2 ≠ []) :
    e.evaluate_clarity st wt doc =
      1 - min 1 (max 0 ((((wt doc).length : ℚ) / ((st doc).length : ℚ) - 15) / 25))
    ∧ (((wt doc).length : ℚ) / ((st doc).length : ℚ) ≤ 15 →
        e.evaluate_clarity st wt doc = 1)
    ∧ (40 ≤ ((wt doc).length : ℚ) / ((st doc).length : ℚ) →
        e.evaluate_clarity st wt doc = 0)
    ∧ 0 ≤ e.evaluate_clarity st wt doc
    ∧ e.evaluate_clarity st wt doc ≤ 1
    ∧ (15 ≤ ((wt doc).length : ℚ) / ((st doc).length : ℚ) →
        ((wt doc).length : ℚ) / ((st doc).length : ℚ)
          ≤ ((wt2 doc2).length : ℚ) / ((st2 doc2).length : ℚ) →
        ((wt2 doc2).length : ℚ) / ((st2 doc2).length : ℚ) ≤ 40 →
        e2.evaluate_clarity st2 wt2 doc2 ≤ e.evaluate_clarity st wt doc) := by
  have key : ∀ (ev : DocEvaluator) (f g : List Char → List (List Char))
      (t : List Char), f t ≠ [] → g t ≠ [] →
      ev.evaluate_clarity f g t =
        1 - min 1 (max 0 ((((g t).length : ℚ) / ((f t).length : ℚ) - 15) / 25)) := by
    intro ev f g t hf hg
    unfold DocEvaluator.evaluate_clarity
    rw [if_neg (by simp [List.isEmpty_iff, hf, hg])]
  have h1 := key e st wt doc hs hw
  have h2 := key e2 st2 wt2 doc2 hs2 hw2
  set a : ℚ := ((wt doc).length : ℚ) / ((st doc).length : ℚ) with ha
  set b : ℚ := ((wt2 doc2).length : ℚ) / ((st2 doc2).length : ℚ) with hb
  have hmax : (0 : ℚ) ≤ max 0 ((a - 15) / 25) := le_max_left _ _
  have hmin0 : (0 : ℚ) ≤ min 1 (max 0 ((a - 15) / 25)) := le_min zero_le_one hmax
  have hmin1 : min 1 (max 0 ((a - 15) / 25)) ≤ 1 := min_le_left _ _
  refine ⟨h1, ?_, ?_, ?_, ?_, ?_⟩
  · intro hle
    rw [h1]
    have hd : (a - 15) / 25 ≤ 0 :=
      div_nonpos_of_nonpos_of_nonneg (by linarith) (by norm_num)
    rw [max_eq_left hd, min_eq_right (by norm_num : (0 : ℚ) ≤ 1)]
    norm_num
  · intro hge
    rw [h1]
    have hd : (1 : ℚ) ≤ (a - 15) / 25 := by
      rw [le_div_iff₀ (by norm_num : (0 : ℚ) < 25)]
      linarith
    rw [max_eq_right (le_trans zero_le_one hd), min_eq_left hd]
    ring
  · rw [h1]; linarith
  · rw [h1]; linarith
  · intro _ hab _
    rw [h1, h2]
    have hd : (a - 15) / 25 ≤ (b - 15) / 25 :=
      (div_le_div_iff_of_pos_right (by norm_num : (0 : ℚ) < 25)).mpr (by linarith)
    exact sub_le_sub_left (min_le_min le_rfl (max_le_max le_rfl hd)) 1

/-- Witness for C2: a documentation tokenizing to one sentence of one word has
average sentence length 1 ≤ 15 and clarity exactly 1. -/
theorem C2_clarity_formula_witness :
    oneTok [('a' : Char)] ≠ [] ∧
    (⟨[]⟩ : DocEvaluator).evaluate_clarity oneTok oneTok [('a' : Char)] = 1 := by
  refine ⟨by decide, ?_⟩
  have h := (C2_clarity_formula ⟨[]⟩ ⟨[]⟩ oneTok oneTok oneTok oneTok
    [('a' : Char)] [('a' : Char)] (by decide) (by decide) (by decide) (by decide)).2.1
  apply h
  norm_num [oneTok]

/-- C5: as modelled from the spec (the accuracy-scoring body is truncated out
of the source), `evaluate_accuracy` takes an optional reference, and with the
reference omitted and the external embedding capability unavailable it returns
the "not computable" sentinel — never a numeric score. -/
theorem C5_accuracy_sentinel (e : DocEvaluator) (w : ℝ) (code doc : List Char) :
    e.evaluate_accuracy none w code doc none = .notComputable ∧
    ∀ q : ℝ, e.evaluate_accuracy none w code doc none ≠ .score q :=
  ⟨rfl, fun _ h => by simp [DocEvaluator.evaluate_accuracy] at h⟩

/-- C6: as modelled from the spec, when the supplied reference text equals the
documentation text, `evaluate_accuracy` returns exactly `1.0`: the n-gram
overlap component saturates, and so does the cosine-similarity component
whenever the external embedding of the text is a nonzero vector. -/
theorem C6_accuracy_saturates (e : DocEvaluator)
    (embed : Option (List Char → List ℝ)) (w : ℝ) (code doc : List Char)
    (h : ∀ f ∈ embed, dotProduct (f doc) (f doc) ≠ 0) :
    e.evaluate_accuracy embed w code doc (some doc) = .score 1 := by
  cases embed with
  | none =>
      show AccuracyResult.score ((ngramOverlap (tokens doc) (tokens doc) : ℚ) : ℝ) = _
      rw [ngramOverlap_self]
      norm_num
  | some f =>
      have hf : dotProduct (f doc) (f doc) ≠ 0 := h f rfl
      show AccuracyResult.score
        (w * ((ngramOverlap (tokens doc) (tokens doc) : ℚ) : ℝ)
          + (1 - w) * cosineSim (f doc) (f doc)) = _
      rw [ngramOverlap_self, cosineSim_self (f doc) hf]
      norm_num

/-- Witness for C6 with the one-dimensional embedding sending every text to
the vector `[1]`, whose self dot product is nonzero. -/
theorem C6_accuracy_saturates_witness :
    (∀ f ∈ (some (fun _ => [(1 : ℝ)]) : Option (List Char → List ℝ)),
        dotProduct (f [('a' : Char)]) (f [('a' : Char)]) ≠ 0) ∧
    (⟨[]⟩ : DocEvaluator).evaluate_accuracy (some (fun _ => [(1 : ℝ)])) 0
        [] [('a' : Char)] (some [('a' : Char)]) = .score 1 := by
  have hmem : ∀ f ∈ (some (fun _ => [(1 : ℝ)]) : Option (List Char → List ℝ)),
      dotProduct (f [('a' : Char)]) (f [('a' : Char)]) ≠ 0 := by
    intro f hf
    rw [Option.mem_def] at hf
    cases Option.some.inj hf
    show dotProduct [(1 : ℝ)] [(1 : ℝ)] ≠ 0
    norm_num [dotProduct]
  exact ⟨hmem, C6_accuracy_saturates ⟨[]⟩ (some (fun _ => [(1 : ℝ)])) 0
    [] [('a' : Char)] hmem⟩

/-- Counterexample to C7: constructing an evaluator with no explicit key, no
environment key and an unset global succeeds and only logs a warning (the
source has no raise statement and defines no `ConfigurationError`); first use
of a scorer then returns a normal value.  Construction therefore does silently
default to an unconfigured state, contradicting the claim. -/
theorem C7_counterexample :
    (DocEvaluator.init ("gpt-4".toList) none none none).warned = true ∧
    (DocEvaluator.init ("gpt-4".toList) none none none).openai_api_key = none ∧
    (DocEvaluator.init ("gpt-4".toList) none none none).evaluator.evaluate_completeness
        [] [] = 1 :=
  ⟨rfl, rfl, rfl⟩

/-- C7 amended: when neither the explicit `api_key` nor the `OPENAI_API_KEY`
environment variable is truthy, construction succeeds with the warning logged
and the process-wide key left unchanged; no error of any kind is raised at
construction or first use. -/
theorem C7_amended_silent_default (m : List Char)
    (api env prev : Option (List Char))
    (h1 : truthy api = false) (h2 : truthy env = false) :
    DocEvaluator.init m api env prev = ⟨⟨m⟩, prev, true⟩ := by
  unfold DocEvaluator.init
  rw [h1, h2]
  simp

/-- Witness for the amended C7 at a fully absent credential configuration. -/
theorem C7_amended_silent_default_witness :
    truthy none = false ∧
    DocEvaluator.init ("gpt-4".toList) none none none
      = ⟨⟨"gpt-4".toList⟩, none, true⟩ :=
  ⟨rfl, C7_amended_silent_default ("gpt-4".toList) none none none rfl rfl⟩

end CodeDocGen
